import Mathlib

/-!
Verification development for the `CUE4Parse-Natives` repository fragment.

The supplied source is a single 16-line C-linkage header,
`src/CUE4Parse-Natives/cue4parse_c_api.h`, declaring one function:

  `DLLEXPORT bool IsFeatureAvailable(const char* feature);`

The first part of this file embeds the header itself as data: the C types
appearing in the declaration, the declaration of `IsFeatureAvailable`, and the
interface surface of the header file.  The second part gives a semantics to a
call of `IsFeatureAvailable`, modelled from the specification, since the
function body and `Framework.h` are not among the supplied sources.
-/

/-- The C types that occur in the header (plus `int32` from the included
`stdint.h`, used to state that the return type is not an integer). -/
inductive CType where
  | bool
  | char
  | int32
  | ptr (pointee : CType)
  | const (t : CType)
deriving DecidableEq

/-- Linkage of a declared symbol: C linkage (inside an `extern "C"` block, or
compiled as C) versus C++ linkage. -/
inductive Linkage where
  | c
  | cxx
deriving DecidableEq

/-- Calling conventions a Windows/POSIX C declaration could carry.  A plain
C-linkage declaration with no convention keyword uses the default C calling
convention `cdecl`. -/
inductive CallConv where
  | cdecl
  | stdcall
  | fastcall
deriving DecidableEq

/-- One formal parameter of a C function declaration. -/
structure Param where
  name : String
  type : CType
deriving DecidableEq

/-- A C function declaration as it appears in the header: its symbol name,
whether it is exported from the shared library, its linkage, its calling
convention, its parameter list, and its return type. -/
structure FunDecl where
  name : String
  sharedLibraryExport : Bool
  linkage : Linkage
  callConv : CallConv
  params : List Param
  ret : CType
deriving DecidableEq

/-- Modelled from the spec: the macro `DLLEXPORT` is defined in `Framework.h`,
which is not among the supplied sources.  The spec states the function is
"exported from a shared library", so the macro is modelled as marking a
declaration as a shared-library export. -/
def DLLEXPORT : Bool := true

/-- The declaration on line 12 of `cue4parse_c_api.h`:
`DLLEXPORT bool IsFeatureAvailable(const char* feature);`, placed inside the
`extern "C"` block opened on lines 7-9 and closed on lines 14-16, with no
calling-convention keyword (hence the default C convention). -/
def IsFeatureAvailableDecl : FunDecl :=
  { name := "IsFeatureAvailable"
    sharedLibraryExport := DLLEXPORT
    linkage := Linkage.c
    callConv := CallConv.cdecl
    params := [{ name := "feature", type := CType.ptr (CType.const CType.char) }]
    ret := CType.bool }

/-- The kinds of externally visible interface a module could present.  The
header presents only exported functions; the other constructors exist so that
their absence is a statement about the embedded header, not a tautology. -/
inductive InterfaceSurface where
  | exportedFunction (d : FunDecl)
  | fileFormat (descr : String)
  | wireProtocol (descr : String)
  | cliCommand (descr : String)
  | envVar (descr : String)
  | persistedState (descr : String)
deriving DecidableEq

/-- A header file: its line count, the headers it includes, every interface
surface it declares, and any error-code constants it defines. -/
structure HeaderFile where
  lineCount : Nat
  includes : List String
  surfaces : List InterfaceSurface
  errorCodeConstants : List String
deriving DecidableEq

/-- The embedded content of `src/CUE4Parse-Natives/cue4parse_c_api.h`: 16 lines,
three includes, a single exported function declaration, and no error-code
constants. -/
def cue4parse_c_api : HeaderFile :=
  { lineCount := 16
    includes := ["Framework.h", "stdint.h", "stdbool.h"]
    surfaces := [InterfaceSurface.exportedFunction IsFeatureAvailableDecl]
    errorCodeConstants := [] }

/-- Whether a C type is the null-terminated-string parameter type
`const char*`. -/
def isCStringType : CType → Bool
  | CType.ptr (CType.const CType.char) => true
  | _ => false

/-- Whether a C type is C-compatible, i.e. usable across the C ABI boundary:
the scalar types are, and pointers to and const-qualified versions of
C-compatible types are. -/
def cCompatible : CType → Bool
  | CType.bool => true
  | CType.char => true
  | CType.int32 => true
  | CType.ptr t => cCompatible t
  | CType.const t => cCompatible t

/-- A byte-addressed memory modelling the caller's address space.  Each address
holds one byte value. -/
structure CMem where
  bytes : Nat → Nat

/-- Read the null-terminated string starting at address `p` in memory `m`:
collect bytes until a 0 byte.  The fuel bounds the scan; `none` means no
terminator was found within `fuel` bytes, i.e. the argument is not a valid
null-terminated string within that bound. -/
def readCString (m : CMem) : Nat → Nat → Option (List Nat)
  | _, 0 => none
  | p, fuel + 1 =>
    if m.bytes p = 0 then some []
    else Option.map (fun s => m.bytes p :: s) (readCString m (p + 1) fuel)

/-- The channels through which a C-ABI call could deliver its result: a normal
return of the declared `bool`, an error code, or a raised exception escaping
the boundary.  Listing the alternatives makes their absence provable rather
than unstatable. -/
inductive FFIOutcome where
  | retBool (b : Bool)
  | errorCode (code : Int)
  | exceptionRaised
deriving DecidableEq

/-- Modelled from the spec: the body of `IsFeatureAvailable` is not among the
supplied sources; the spec states only that the function "takes one
null-terminated string identifying a feature name; returns a boolean", that
"the only data touched is a single textual feature identifier (a sequence of
characters) passed by reference and a boolean result", and that no error codes,
exceptions, or failure paths exist beyond the plain boolean return.  A call is
therefore modelled as: read the null-terminated feature string from the
caller's memory, apply an arbitrary total boolean-valued implementation `impl`
to it, and return the unchanged memory together with the boolean.  `none`
means the argument was not a valid null-terminated string within `fuel` bytes,
a case the spec leaves unspecified. -/
def callIsFeatureAvailable (impl : List Nat → Bool) (m : CMem) (p : Nat)
    (fuel : Nat) : Option (CMem × FFIOutcome) :=
  match readCString m p fuel with
  | none => none
  | some s => some (m, FFIOutcome.retBool (impl s))

/-- Helper: any completed call read some string `s` from the input memory and
produced exactly the pair of the unchanged memory and `retBool (impl s)`. -/
theorem callIsFeatureAvailable_eq_some (impl : List Nat → Bool) (m : CMem)
    (p fuel : Nat) (r : CMem × FFIOutcome)
    (h : callIsFeatureAvailable impl m p fuel = some r) :
    ∃ s, readCString m p fuel = some s ∧ r = (m, FFIOutcome.retBool (impl s)) := by
  unfold callIsFeatureAvailable at h
  cases hr : readCString m p fuel with
  | none => rw [hr] at h; exact absurd h (by simp)
  | some s =>
    rw [hr] at h
    exact ⟨s, rfl, (Option.some.inj h).symm⟩

/-- The concrete memory used by the witness theorems: every byte is 0, so
address 0 holds a valid (empty) null-terminated string. -/
def zeroMem : CMem := { bytes := fun _ => 0 }

/-- Claim C1: for every valid null-terminated string input identifying a
feature, a call to `IsFeatureAvailable` completes and returns a boolean value,
with no crash: under the modelled semantics, whenever the argument is a valid
null-terminated string (`readCString` succeeds), the call yields a result, and
that result carries a boolean. -/
theorem C1_call_completes_with_bool (impl : List Nat → Bool) (m : CMem)
    (p fuel : Nat) (s : List Nat) (h : readCString m p fuel = some s) :
    ∃ b : Bool,
      callIsFeatureAvailable impl m p fuel = some (m, FFIOutcome.retBool b) := by
  exact ⟨impl s, by unfold callIsFeatureAvailable; rw [h]⟩

/-- Witness for C1 at a concrete input: the all-zero memory holds the empty
null-terminated string at address 0, and the call completes with a boolean. -/
theorem C1_call_completes_with_bool_witness :
    readCString zeroMem 0 1 = some [] ∧
    ∃ b : Bool,
      callIsFeatureAvailable (fun _ => true) zeroMem 0 1 =
        some (zeroMem, FFIOutcome.retBool b) :=
  ⟨rfl, C1_call_completes_with_bool (fun _ => true) zeroMem 0 1 [] rfl⟩

/-- Claim C2: the operation `IsFeatureAvailable` takes exactly one parameter, a
null-terminated string (`const char*`) naming a feature, and its result type is
boolean. -/
theorem C2_signature_one_string_param_bool_ret :
    IsFeatureAvailableDecl.params =
      [{ name := "feature", type := CType.ptr (CType.const CType.char) }] ∧
    isCStringType (CType.ptr (CType.const CType.char)) = true ∧
    IsFeatureAvailableDecl.ret = CType.bool :=
  ⟨rfl, rfl, rfl⟩

/-- Claim C3: a call to `IsFeatureAvailable` produces no output other than its
boolean return value: under the modelled semantics every completed call leaves
the caller's memory exactly as it was and yields only a boolean. -/
theorem C3_no_output_beyond_bool (impl : List Nat → Bool) (m m' : CMem)
    (p fuel : Nat) (o : FFIOutcome)
    (h : callIsFeatureAvailable impl m p fuel = some (m', o)) :
    m' = m ∧ ∃ b : Bool, o = FFIOutcome.retBool b := by
  obtain ⟨s, _, hr⟩ := callIsFeatureAvailable_eq_some impl m p fuel (m', o) h
  obtain ⟨hm, ho⟩ := Prod.mk.injEq .. ▸ hr
  exact ⟨hm, impl s, ho⟩

/-- Witness for C3 at a concrete input: a completed call on the all-zero memory
returns that memory unchanged together with a boolean. -/
theorem C3_no_output_beyond_bool_witness :
    zeroMem = zeroMem ∧ ∃ b : Bool, FFIOutcome.retBool false = FFIOutcome.retBool b :=
  C3_no_output_beyond_bool (fun _ => false) zeroMem zeroMem 0 1
    (FFIOutcome.retBool false) rfl

/-- Claim C4: `IsFeatureAvailable` signals failure through no channel other
than its plain boolean return: every completed call's outcome is a `retBool`,
never an error code and never a raised exception, and the header defines no
error-code constants. -/
theorem C4_no_error_channel (impl : List Nat → Bool) (m : CMem) (p fuel : Nat)
    (r : CMem × FFIOutcome) (h : callIsFeatureAvailable impl m p fuel = some r) :
    (∃ b : Bool, r.2 = FFIOutcome.retBool b) ∧
    (∀ code : Int, r.2 ≠ FFIOutcome.errorCode code) ∧
    r.2 ≠ FFIOutcome.exceptionRaised ∧
    cue4parse_c_api.errorCodeConstants = [] := by
  obtain ⟨s, _, hr⟩ := callIsFeatureAvailable_eq_some impl m p fuel r h
  refine ⟨⟨impl s, by rw [hr]⟩, ?_, ?_, rfl⟩
  · intro code hc
    rw [hr] at hc
    exact FFIOutcome.noConfusion hc
  · intro hc
    rw [hr] at hc
    exact FFIOutcome.noConfusion hc

/-- Witness for C4 at a concrete input: a completed call on the all-zero memory
has a boolean outcome and uses no error channel. -/
theorem C4_no_error_channel_witness :
    (∃ b : Bool,
        (zeroMem, FFIOutcome.retBool true).2 = FFIOutcome.retBool b) ∧
    (∀ code : Int,
        (zeroMem, FFIOutcome.retBool true).2 ≠ FFIOutcome.errorCode code) ∧
    (zeroMem, FFIOutcome.retBool true).2 ≠ FFIOutcome.exceptionRaised ∧
    cue4parse_c_api.errorCodeConstants = [] :=
  C4_no_error_channel (fun _ => true) zeroMem 0 1
    (zeroMem, FFIOutcome.retBool true) rfl

/-- Claim C5: the module's public interface is exactly one declared operation:
the embedded 16-line header's interface surface is the single exported function
`IsFeatureAvailable`, with no other exported symbol, file format, wire
protocol, CLI surface, environment variable, or persisted state. -/
theorem C5_interface_is_single_function :
    cue4parse_c_api.surfaces =
      [InterfaceSurface.exportedFunction IsFeatureAvailableDecl] ∧
    IsFeatureAvailableDecl.name = "IsFeatureAvailable" ∧
    cue4parse_c_api.lineCount = 16 :=
  ⟨rfl, rfl, rfl⟩

/-- Claim C6: `IsFeatureAvailable` is exported with C linkage and the C calling
convention from a shared library, and both its parameter type (`const char*`)
and its return type (`bool`) are C-compatible, so the call can cross a
cross-language boundary. -/
theorem C6_c_linkage_shared_library_export :
    IsFeatureAvailableDecl.linkage = Linkage.c ∧
    IsFeatureAvailableDecl.callConv = CallConv.cdecl ∧
    IsFeatureAvailableDecl.sharedLibraryExport = true ∧
    IsFeatureAvailableDecl.params.map Param.type =
      [CType.ptr (CType.const CType.char)] ∧
    cCompatible (CType.ptr (CType.const CType.char)) = true ∧
    IsFeatureAvailableDecl.ret = CType.bool ∧
    cCompatible CType.bool = true :=
  ⟨rfl, rfl, rfl, rfl, rfl, rfl, rfl⟩

/-- Claim C7: `IsFeatureAvailable` never modifies the caller's feature-name
string through its parameter: the parameter is declared `const char*`, and
under the modelled semantics the string read back at the argument address after
a completed call equals the string read before it. -/
theorem C7_input_string_unchanged (impl : List Nat → Bool) (m m' : CMem)
    (p fuel : Nat) (o : FFIOutcome)
    (h : callIsFeatureAvailable impl m p fuel = some (m', o)) :
    IsFeatureAvailableDecl.params.map Param.type =
      [CType.ptr (CType.const CType.char)] ∧
    readCString m' p fuel = readCString m p fuel := by
  obtain ⟨s, _, hr⟩ := callIsFeatureAvailable_eq_some impl m p fuel (m', o) h
  obtain ⟨hm, _⟩ := Prod.mk.injEq .. ▸ hr
  exact ⟨rfl, by rw [hm]⟩

/-- Witness for C7 at a concrete input: after a completed call on the all-zero
memory, the string at the argument address is unchanged. -/
theorem C7_input_string_unchanged_witness :
    IsFeatureAvailableDecl.params.map Param.type =
      [CType.ptr (CType.const CType.char)] ∧
    readCString zeroMem 0 1 = readCString zeroMem 0 1 :=
  C7_input_string_unchanged (fun _ => true) zeroMem zeroMem 0 1
    (FFIOutcome.retBool true) rfl

/-- Claim C8: the result of `IsFeatureAvailable` is a two-valued C99 `bool`
(declared via the included `stdbool.h`): the header includes `stdbool.h`, the
declared return type is `bool` and not an integer status type, and every value
of the modelling type `Bool` is exactly `true` or `false`. -/
theorem C8_two_valued_bool_result :
    cue4parse_c_api.includes = ["Framework.h", "stdint.h", "stdbool.h"] ∧
    IsFeatureAvailableDecl.ret = CType.bool ∧
    (IsFeatureAvailableDecl.ret == CType.int32) = false ∧
    (∀ b : Bool, b = true ∨ b = false) :=
  ⟨rfl, rfl, rfl, fun b => by cases b <;> simp⟩
